import Mathlib

/-!
# Verification of the AI-Village trajectory ingestion and scoring pipeline

Shallow embedding of:
* `agents/agent1/evaluator_agent/modules/llm_interface.py` (Correctness Judge),
* `agents/agent1/evaluator_agent/modules/scoring_engine.py` (Scoring Engine),
* `agents/agent1/agent_worker/trajectory_processor.py` (Multi-Schema Extractor
  and Trajectory Watcher).

Conventions of the embedding:
* Python floats are modelled as exact rationals (`ℚ`); decimal literals such as
  `0.3` become `3/10`.
* Python strings are Lean `String`s; `str.lower()`, `str.strip()`, `str.split()`
  and the substring operator `in` are re-implemented below over `List Char`
  with Python's semantics (ASCII case folding, whitespace = space/tab/CR/LF).
* The external HTTP judge call is modelled by two parameters: the configured
  API key (`Option String`, `none`/empty = unconfigured) and the text content
  extracted from a successful response (`Option String`, `none` = transport
  failure, non-ok status, or missing content — every path the code's
  `try/except` maps to the heuristic fallback).
-/

namespace AIVillage

/-! ## Python-style string primitives -/

/-- Python `str.lower()` (ASCII case folding, which is all the code relies on). -/
def pyLower (s : String) : String :=
  String.mk (s.data.map Char.toLower)

/-- Python `str.strip()`: drop leading and trailing whitespace. -/
def pyStrip (s : String) : String :=
  String.mk (((s.data.dropWhile Char.isWhitespace).reverse.dropWhile Char.isWhitespace).reverse)

/-- Helper for `pySplit`: walk the characters, accumulating the current word
(reversed) and emitting words at whitespace boundaries. -/
def pySplitAux : List Char → List Char → List String
  | [], cur => if cur.isEmpty then [] else [String.mk cur.reverse]
  | c :: rest, cur =>
    if c.isWhitespace then
      if cur.isEmpty then pySplitAux rest []
      else String.mk cur.reverse :: pySplitAux rest []
    else pySplitAux rest (c :: cur)

/-- Python `str.split()` with no argument: split on runs of whitespace,
no empty pieces. -/
def pySplit (s : String) : List String :=
  pySplitAux s.data []

/-- Does the first list occur at the head of the second? -/
def startsWithChars : List Char → List Char → Bool
  | [], _ => true
  | _ :: _, [] => false
  | a :: as, b :: bs => a = b && startsWithChars as bs

/-- Contiguous-substring test over characters. -/
def hasSubstrChars (needle : List Char) : List Char → Bool
  | [] => needle.isEmpty
  | c :: rest => startsWithChars needle (c :: rest) || hasSubstrChars needle rest

/-- Python `needle in hay` on strings. -/
def pyContains (hay needle : String) : Bool :=
  hasSubstrChars needle.data hay.data

/-- Python `str.startswith`. -/
def pyStartsWith (s pre : String) : Bool :=
  startsWithChars pre.data s.data

/-- Python `str.endswith`. -/
def pyEndsWith (s post : String) : Bool :=
  startsWithChars post.data.reverse s.data.reverse

/-! ## Numeric helpers -/

/-- `ScoringEngine._clip` (scoring_engine.py:35) and the inline
`max(0.0, min(1.0, score))` clamps of llm_interface.py. -/
def clip01 (v : ℚ) : ℚ := max 0 (min 1 v)

/-- `0 ≤ q ∧ q ≤ 1`. -/
def mem01 (q : ℚ) : Prop := 0 ≤ q ∧ q ≤ 1

/-- Round-half-to-even to the nearest integer, as Python's builtin `round`. -/
def bankRound (q : ℚ) : ℤ :=
  if q - ⌊q⌋ < 1/2 then ⌊q⌋
  else if 1/2 < q - ⌊q⌋ then ⌊q⌋ + 1
  else if ⌊q⌋ % 2 = 0 then ⌊q⌋ else ⌊q⌋ + 1

/-- Python `round(x, 4)` (idealized over exact rationals). -/
def round4 (q : ℚ) : ℚ :=
  (bankRound (q * 10000) : ℚ) / 10000

/-! ## Correctness Judge: number parsing
(`llm_interface.py`, `evaluate_correctness` response handling) -/

/-- Value of a digit string (most significant first). -/
def digitsVal (cs : List Char) : ℕ :=
  cs.foldl (fun a c => a * 10 + (c.toNat - 48)) 0

/-- Exponent tail of a Python float literal (`e`/`E` already consumed). -/
def pyExpTail (mant : ℚ) (r : List Char) : Option ℚ :=
  let sgr : ℤ × List Char :=
    match r with
    | '-' :: r2 => (-1, r2)
    | '+' :: r2 => (1, r2)
    | _ => (1, r)
  let eds := sgr.2.takeWhile Char.isDigit
  let rest := sgr.2.dropWhile Char.isDigit
  if eds.isEmpty || !rest.isEmpty then none
  else some (mant * (10 : ℚ) ^ (sgr.1 * (digitsVal eds : ℤ)))

/-- Python `float(content)` on an already-stripped string, restricted to the
decimal/exponent literal forms (`[+-]? digits [. digits]? ([eE][+-]?digits)?`,
also `.digits`).  The special forms `inf`/`nan`/underscored literals, which a
ten-token LLM reply never takes, are not modelled and fail the direct parse
(falling to the regex extraction, as an unparsable string does in the code). -/
def pyFloat? (s : String) : Option ℚ :=
  let cs := s.data
  let sgcs : ℚ × List Char :=
    match cs with
    | '-' :: r => (-1, r)
    | '+' :: r => (1, r)
    | _ => (1, cs)
  let ip := sgcs.2.takeWhile Char.isDigit
  let rest1 := sgcs.2.dropWhile Char.isDigit
  let fp := match rest1 with
    | '.' :: r => r.takeWhile Char.isDigit
    | _ => []
  let rest2 := match rest1 with
    | '.' :: r => r.dropWhile Char.isDigit
    | _ => rest1
  if ip.isEmpty && fp.isEmpty then none
  else
    let mant : ℚ := sgcs.1 * ((digitsVal ip : ℚ) + (digitsVal fp : ℚ) / (10 : ℚ) ^ fp.length)
    match rest2 with
    | [] => some mant
    | 'e' :: r => pyExpTail mant r
    | 'E' :: r => pyExpTail mant r
    | _ => none

/-- The regex extraction `re.search(r'([0-9]+(?:\.[0-9]+)?)', content)`:
leftmost match of a digit run with an optional `.digits` tail. -/
def extractNumAux : List Char → Option ℚ
  | [] => none
  | c :: rest =>
    if c.isDigit then
      let ip := c :: rest.takeWhile Char.isDigit
      let r1 := rest.dropWhile Char.isDigit
      let fp := match r1 with
        | '.' :: r => r.takeWhile Char.isDigit
        | _ => []
      some ((digitsVal ip : ℚ) + (digitsVal fp : ℚ) / (10 : ℚ) ^ fp.length)
    else extractNumAux rest

/-- First numeric substring of `s`, if any. -/
def extractNum? (s : String) : Option ℚ :=
  extractNumAux s.data

/-- The two-stage score parse of `evaluate_correctness` (llm_interface.py:119-129):
direct `float()` first, regex extraction on failure. -/
def parseScore (s : String) : Option ℚ :=
  match pyFloat? s with
  | some v => some v
  | none => extractNum? s

/-! ## Correctness Judge: heuristic fallback and main entry
(`llm_interface.py:58-191`) -/

/-- The stop-word set of `_fallback_correctness` (llm_interface.py:162). -/
def stopWords : List String :=
  ["the", "a", "an", "and", "or", "but", "in", "on", "at", "to", "for", "of",
   "with", "by", "is", "are", "was", "were", "be", "been", "have", "has", "had",
   "do", "does", "did", "will", "would", "should", "could", "may", "might",
   "must", "can"]

/-- `set(word for word in s.lower().split() if word not in stop_words and len(word) > 2)`
— modelled as a deduplicated list (only size and membership are consumed). -/
def meaningfulWords (s : String) : List String :=
  ((pySplit (pyLower s)).filter
    (fun w => !(stopWords.contains w) && decide (2 < w.length))).dedup

/-- The length factor (`length_penalty`) of `_fallback_correctness`
(llm_interface.py:175-182). -/
def lengthFactor (initial_request final_output : String) : ℚ :=
  let min_output_length : ℚ := max 10 ((initial_request.length : ℚ) * (2/10))
  if (final_output.length : ℚ) < min_output_length then 3/10
  else
    let length_ratio : ℚ :=
      min 1 ((final_output.length : ℚ) / max 1 ((initial_request.length : ℚ)))
    1 - (1 - length_ratio) * (3/10)

/-- `LLMInterface._fallback_correctness` (llm_interface.py:148-191). -/
def fallback_correctness (initial_request final_output : String) : ℚ :=
  if initial_request = "" then (if final_output ≠ "" then 3/10 else 0)
  else if final_output = "" then 0
  else
    let request_words := meaningfulWords initial_request
    let output_words := meaningfulWords final_output
    if request_words = [] then (if final_output ≠ "" then 2/5 else 0)
    else
      let common_words := request_words.filter (fun w => output_words.contains w)
      let keyword_match_ratio : ℚ :=
        (common_words.length : ℚ) / (request_words.length : ℚ)
      let length_penalty := lengthFactor initial_request final_output
      let score : ℚ := 7/10 * keyword_match_ratio + 3/10 * length_penalty
      let floored : ℚ :=
        if 0 < common_words.length ∧ 0 < final_output.length
        then max (3/10) score else score
      clip01 floored

/-- Truthiness of `self.api_key` (`if not self.api_key`): a key is configured
iff present and non-empty. -/
def keyTruthy : Option String → Bool
  | some k => !(k == "")
  | none => false

/-- `LLMInterface.evaluate_correctness` (llm_interface.py:58-146).

`apiKey` is the configured key; `resp` is the `choices[0].message.content`
string of a successful (`resp.ok`) HTTP reply, `none` standing for any failed
call (exception, non-ok status, missing content) — all of which the code's
`try/except`/`if resp.ok` structure sends to the heuristic fallback. -/
def evaluate_correctness (apiKey resp : Option String)
    (initial_request final_output : String) : ℚ :=
  if initial_request = "" ∨ final_output = "" then 0
  else if keyTruthy apiKey = false then
    fallback_correctness initial_request final_output
  else
    match resp with
    | none => fallback_correctness initial_request final_output
    | some content =>
      match parseScore (pyStrip content) with
      | none => fallback_correctness initial_request final_output
      | some v => clip01 (if 1 < v then v / 100 else v)

/-! ## Scoring Engine (`scoring_engine.py`) -/

/-- `MetricsSnapshot`: the numeric metric fields `score_task` reads
(scoring_engine.py:66-72,200).  Missing fields default to `0`/`0.0` in the
code (`m.get(..., 0)`), so a total record with the defaulted values is the
faithful image of any partial input mapping whose present fields are numbers. -/
structure Metrics where
  error_count : ℚ
  retry_count : ℚ
  human_or_agent_requests : ℚ
  completion_time_s : ℚ
  total_api_calls : ℚ
  memory_usage_mb : ℚ
  cpu_usage_percent : ℚ
  cost_usd : ℚ

/-- One progress entry.  `status` is the raw status string
(`str(last.get("status") or "")` makes a missing/None status the empty
string, so a `String` field is exact).  `progress` is the value after the
numeric coercions of scoring_engine.py:48-54: `some q` when it was an
int/float/Decimal/parsable numeric string, `none` when it was absent or of
any unparsable form (which the code leaves as `None` /
fails the `isinstance` check, contributing nothing). -/
structure ProgressEntry where
  status : String
  progress : Option ℚ

/-- The evaluation input mapping consumed by `score_task`.
`task_info` is `some s` when `data["task_info"]` is present and truthy with
status string `s` (`str(task_info.get("status", "") or "")`), else `none`. -/
structure TaskData where
  metrics : Metrics
  progress : List ProgressEntry
  task_info : Option String
  initial_request : String
  final_output : String

/-- The `"done" in status or "complete" in status or status == "success"`
test applied to a lowered status (scoring_engine.py:57,138,146). -/
def statusDone (status : String) : Bool :=
  let s := pyLower status
  pyContains s "done" || pyContains s "complete" || s == "success"

/-- `ScoringEngine._heuristic_correctness` (scoring_engine.py:38-59). -/
def heuristic_correctness (data : TaskData) : ℚ :=
  let progress_ratio : ℚ :=
    match data.progress.getLast? with
    | none => 0
    | some last =>
      let base : ℚ :=
        match last.progress with
        | some prog => if prog ≤ 1 then clip01 prog else min 1 (prog / 100)
        | none => 0
      if statusDone last.status then max base 1 else base
  clip01 (9/10 * progress_ratio + 1/10 * (1 / (1 + data.metrics.error_count)))

/-- The completion test of scoring_engine.py:133-147: latest progress status,
or else the separately supplied `task_info` status, indicates
done/complete/success. -/
def isCompleted (data : TaskData) : Bool :=
  (match data.progress.getLast? with
   | some last => statusDone last.status
   | none => false) ||
  (match data.task_info with
   | some s => statusDone s
   | none => false)

/-- The correctness value of `score_task` before the completion floor
(scoring_engine.py:96-130): the LLM judge when an `llm` is configured and
both request and output are non-blank, the heuristic otherwise.
(`evaluate_correctness` never raises in the embedding, so the code's
fallback-on-exception branch, scoring_engine.py:106-114, is unreachable.) -/
def preFloorCorrectness (llm : Bool) (apiKey resp : Option String)
    (data : TaskData) : ℚ :=
  let has_request := pyStrip data.initial_request ≠ ""
  let has_output := pyStrip data.final_output ≠ ""
  if llm = true ∧ has_request ∧ has_output then
    evaluate_correctness apiKey resp data.initial_request data.final_output
  else
    heuristic_correctness data

/-- efficiency sub-score (scoring_engine.py:168). -/
def efficiencyScore (completion_time total_api_calls retry_count : ℚ) : ℚ :=
  clip01 (4/10 * (1 / (1 + completion_time / 300)) +
          3/10 * (1 / (1 + total_api_calls / 50)) +
          3/10 * (1 / (1 + retry_count)))

/-- quality sub-score (scoring_engine.py:171). -/
def qualityScore (error_count retry_count : ℚ) : ℚ :=
  clip01 (6/10 * (1 / (1 + error_count)) + 4/10 * (1 / (1 + retry_count)))

/-- stability sub-score (scoring_engine.py:174). -/
def stabilityScore (error_count completion_time : ℚ) : ℚ :=
  clip01 (1/2 * (1 / (1 + error_count)) + 1/2 * (1 / (1 + completion_time / 600)))

/-- autonomy sub-score (scoring_engine.py:177). -/
def autonomyScore (deps : ℚ) : ℚ :=
  clip01 (1 / (1 + deps))

/-- resource_efficiency sub-score (scoring_engine.py:180). -/
def resourceEfficiencyScore (mem cpu : ℚ) : ℚ :=
  clip01 (1/2 * (1 / (1 + mem / 1024)) + 1/2 * (1 / (1 + cpu / 100)))

/-- `dependency_penalty` (scoring_engine.py:183). -/
def dependencyPenalty (deps : ℚ) : ℚ := min (3/10) (1/20 * deps)

/-- `error_penalty` (scoring_engine.py:185). -/
def errorPenalty (error_count : ℚ) : ℚ := min (3/10) (1/20 * error_count)

/-- The `{"scores": ..., "penalties": ...}` report returned by `score_task`. -/
structure ScoreReport where
  correctness : ℚ
  efficiency : ℚ
  quality : ℚ
  stability : ℚ
  autonomy : ℚ
  resource_efficiency : ℚ
  final_score : ℚ
  dependency_penalty : ℚ
  timeout_penalty : ℚ
  error_penalty : ℚ

/-- `ScoringEngine.score_task` (scoring_engine.py:61-217) with the default
weights (scoring_engine.py:14-21).  `llm`/`apiKey`/`resp` configure the
Correctness Judge as in `evaluate_correctness`. -/
def score_task (llm : Bool) (apiKey resp : Option String)
    (data : TaskData) : ScoreReport :=
  let m := data.metrics
  let c0 := preFloorCorrectness llm apiKey resp data
  let correctness : ℚ := if isCompleted data = true ∧ c0 < 3/10 then 3/10 else c0
  let efficiency := efficiencyScore m.completion_time_s m.total_api_calls m.retry_count
  let quality := qualityScore m.error_count m.retry_count
  let stability := stabilityScore m.error_count m.completion_time_s
  let autonomy := autonomyScore m.human_or_agent_requests
  let resource_efficiency := resourceEfficiencyScore m.memory_usage_mb m.cpu_usage_percent
  let dep_pen := dependencyPenalty m.human_or_agent_requests
  let err_pen := errorPenalty m.error_count
  let weighted : ℚ :=
    35/100 * correctness + 15/100 * efficiency + 15/100 * quality +
    10/100 * stability + 15/100 * autonomy + 10/100 * resource_efficiency
  let final0 : ℚ := max 0 (weighted - (dep_pen + 0 + err_pen))
  let final_score : ℚ :=
    if 0 < m.cost_usd then max 0 (final0 - min (1/10) (m.cost_usd / 10))
    else final0
  { correctness := round4 correctness
    efficiency := round4 efficiency
    quality := round4 quality
    stability := round4 stability
    autonomy := round4 autonomy
    resource_efficiency := round4 resource_efficiency
    final_score := round4 final_score
    dependency_penalty := dep_pen
    timeout_penalty := 0
    error_penalty := err_pen }

/-! ## JSON documents (`trajectory_processor.py`) -/

/-- A parsed JSON value (`json.load` result).  Objects carry their key/value
pairs; `json.load` returns dicts with unique keys, so lookup is by first
match. -/
inductive Json where
  | null : Json
  | bool (b : Bool) : Json
  | num (q : ℚ) : Json
  | str (s : String) : Json
  | arr (items : List Json) : Json
  | obj (kvs : List (String × Json)) : Json

/-- Key lookup in an object's pair list. -/
def jLookup : List (String × Json) → String → Option Json
  | [], _ => none
  | (k, v) :: rest, key => if k = key then some v else jLookup rest key

/-- Python `data.get(k)` / `data[k]` on a dict; `none` on anything else
(call sites guard with `isinstance(..., dict)`). -/
def Json.lookup : Json → String → Option Json
  | .obj kvs, k => jLookup kvs k
  | _, _ => none

/-- `isinstance(x, dict)`. -/
def Json.isObj : Json → Bool
  | .obj _ => true
  | _ => false

/-- Python `x == s` for a string literal `s` against a `get` result
(`None` and non-strings compare unequal). -/
def isStrVal (o : Option Json) (s : String) : Bool :=
  match o with
  | some (.str t) => t == s
  | _ => false

/-- Python truthiness of a JSON value. -/
def Json.truthy : Json → Bool
  | .null => false
  | .bool b => b
  | .num q => !(q == 0)
  | .str s => !(s == "")
  | .arr items => !items.isEmpty
  | .obj kvs => !kvs.isEmpty

/-- Python `a or b` over two `get` results (`none` = Python `None`):
the first operand when truthy, otherwise the second as-is. -/
def pyOr (a b : Option Json) : Option Json :=
  match a with
  | some v => if v.truthy then some v else b
  | none => b

/-- Truthiness of a `get` result (`None` is falsy). -/
def optTruthy : Option Json → Bool
  | some v => v.truthy
  | none => false

/-! ## Multi-Schema Extractor
(`TrajectoryProcessor._extract_messages_from_json`, trajectory_processor.py:43-135)

The source appends into one `messages` list while checking the five shapes in
a fixed order; this is the concatenation of the five per-shape contributions
in that order. -/

/-- The repeated
`if isinstance(text, str) and text.strip(): messages.append(text.strip())`
idiom applied to a `get` result. -/
def strTrimmed : Option Json → List String
  | some (.str t) => if pyStrip t ≠ "" then [pyStrip t] else []
  | _ => []

/-- One content entry of a `"type": "message"` item
(trajectory_processor.py:61-71 and 81-92): `output_text` entries or entries
carrying a direct `text` field contribute their trimmed text. -/
def contentItemText (ci : Json) : List String :=
  match ci with
  | .obj _ =>
    if isStrVal (ci.lookup "type") "output_text" then
      strTrimmed (ci.lookup "text")
    else if (ci.lookup "text").isSome then
      strTrimmed (ci.lookup "text")
    else []
  | _ => []

/-- One item of `response.output` (Schema 1, trajectory_processor.py:56-71):
only dict items of type `"message"` with a list `content` contribute. -/
def outputItemTexts1 (item : Json) : List String :=
  match item with
  | .obj _ =>
    if isStrVal (item.lookup "type") "message" then
      match (item.lookup "content").getD (.arr []) with
      | .arr content => content.flatMap contentItemText
      | _ => []
    else []
  | _ => []

/-- Schema 1: `data["response"]["output"]` (trajectory_processor.py:51-71). -/
def schemaResponseOutput (data : Json) : List String :=
  match data.lookup "response" with
  | some response =>
    if response.isObj then
      match response.lookup "output" with
      | some (.arr output) => output.flatMap outputItemTexts1
      | _ => []
    else []
  | none => []

/-- One item of a direct `output` list (Schema 2,
trajectory_processor.py:77-95): as Schema 1, plus a plain-string `content`. -/
def outputItemTexts2 (item : Json) : List String :=
  match item with
  | .obj _ =>
    if isStrVal (item.lookup "type") "message" then
      match (item.lookup "content").getD (.arr []) with
      | .arr content => content.flatMap contentItemText
      | .str s => if pyStrip s ≠ "" then [pyStrip s] else []
      | _ => []
    else []
  | _ => []

/-- Schema 2: `data["output"]` (trajectory_processor.py:74-95). -/
def schemaDirectOutput (data : Json) : List String :=
  match data.lookup "output" with
  | some (.arr output) => output.flatMap outputItemTexts2
  | _ => []

/-- One entry of an assistant `content` list (trajectory_processor.py:104-110):
dicts with a `text` field or plain non-blank strings. -/
def roleContentItemText (item : Json) : List String :=
  match item with
  | .obj _ =>
    if (item.lookup "text").isSome then strTrimmed (item.lookup "text") else []
  | .str s => if pyStrip s ≠ "" then [pyStrip s] else []
  | _ => []

/-- Schema 3: role-based assistant messages (trajectory_processor.py:98-110). -/
def schemaRole (data : Json) : List String :=
  if isStrVal (data.lookup "role") "assistant" then
    match data.lookup "content" with
    | some (.str content) => if pyStrip content ≠ "" then [pyStrip content] else []
    | some (.arr items) => items.flatMap roleContentItemText
    | _ => []
  else []

/-- One flat field of Schema 4 (trajectory_processor.py:113-121): a string
value, or a dict value carrying a `text` field. -/
def flatFieldText (data : Json) (field : String) : List String :=
  match data.lookup field with
  | some (.str v) => if pyStrip v ≠ "" then [pyStrip v] else []
  | some (.obj kvs) =>
    if (jLookup kvs "text").isSome then strTrimmed (jLookup kvs "text") else []
  | _ => []

/-- Schema 4: direct `text`/`result`/`message`/`content`/`response_text`
fields, in that order (trajectory_processor.py:113-121). -/
def schemaFlat (data : Json) : List String :=
  (["text", "result", "message", "content", "response_text"]).flatMap
    (flatFieldText data)

/-- Schema 5: nested `result.text` and string `result.output`
(trajectory_processor.py:124-133). -/
def schemaResult (data : Json) : List String :=
  match data.lookup "result" with
  | some (.obj kvs) =>
    (if (jLookup kvs "text").isSome then strTrimmed (jLookup kvs "text") else []) ++
    (match jLookup kvs "output" with
     | some (.str s) => if pyStrip s ≠ "" then [pyStrip s] else []
     | _ => [])
  | _ => []

/-- `TrajectoryProcessor._extract_messages_from_json`
(trajectory_processor.py:43-135): a non-dict yields `[]`; a dict yields the
five shapes' contributions concatenated in source order. -/
def extract_messages_from_json (data : Json) : List String :=
  match data with
  | .obj _ =>
    schemaResponseOutput data ++ schemaDirectOutput data ++ schemaRole data ++
    schemaFlat data ++ schemaResult data
  | _ => []

/-! ## Trajectory Watcher (`TrajectoryProcessor`, trajectory_processor.py:137-305)

State and side effects of one processor instance.  Modelled side effects are
the sink calls (`mongo.write_log`, `mongo.store_screenshot` — the latter at
the `_store_screenshot`/`_store_screenshot_base64` boundary, whose internal
path resolution / base64 decoding touches the real filesystem and never
raises past its own `try/except`) and the error line printed by the
per-file exception handler (trajectory_processor.py:225), which is the only
record of a failed file.  Progress prints are not observable effects.

The environment is a pair of parameters: `fs` maps a path to its parsed JSON
document (`none` = unreadable or unparsable — both land in the same `except`),
and `imgExists` is the `Path(...).exists()` check used at two call sites. -/

/-- One observable side effect, in emission order. -/
inductive Effect where
  | writeLog (level : String) (message : String) : Effect
  | storeShotPath (path : String) : Effect
  | storeShotB64 (dataUrl : String) : Effect
  | errPrint (path : String) : Effect
deriving DecidableEq

/-- Mutable state of one `TrajectoryProcessor` instance: the
`processed_files` set plus the trace of emitted effects. -/
structure WState where
  processed : List String
  effects : List Effect
deriving DecidableEq

/-- One content entry of the legacy image scan
(trajectory_processor.py:180-189): a dict whose truthy string
`image_url`/`image` is stored as base64 data URL or, if the file exists, as a
path.  Non-dict entries are skipped (`isinstance(cp, dict)`). -/
def legacyCpEffects (imgExists : String → Bool) (cp : Json) : List Effect :=
  match cp with
  | .obj _ =>
    match pyOr (cp.lookup "image_url") (cp.lookup "image") with
    | some (.str u) =>
      if u ≠ "" then
        if pyStartsWith u "data:image" then [.storeShotB64 u]
        else if imgExists u then [.storeShotPath u]
        else []
      else []
    | _ => []
  | _ => []

/-- Iterating `content` in the legacy scan (`for cp in content`,
trajectory_processor.py:180): lists are scanned; iterating a string (chars)
or a dict (string keys) finds no dicts; anything else raises `TypeError`
(second component `true` = an exception escaped to the per-file handler). -/
def legacyContentScan (imgExists : String → Bool) (content : Json) :
    List Effect × Bool :=
  match content with
  | .arr cps => (cps.flatMap (legacyCpEffects imgExists), false)
  | .str _ => ([], false)
  | .obj _ => ([], false)
  | _ => ([], true)

/-- One item of `data["output"]` in the legacy scan
(trajectory_processor.py:177-189).  `item.get` on a non-dict raises
`AttributeError`. -/
def legacyItemScan (imgExists : String → Bool) (item : Json) :
    List Effect × Bool :=
  match item with
  | .obj _ =>
    if isStrVal (item.lookup "type") "message" then
      legacyContentScan imgExists ((item.lookup "content").getD (.arr []))
    else ([], false)
  | _ => ([], true)

/-- Sequential scan of the output items, stopping at the first exception. -/
def legacyItemsScan (imgExists : String → Bool) : List Json → List Effect × Bool
  | [] => ([], false)
  | item :: rest =>
    let r := legacyItemScan imgExists item
    if r.2 then (r.1, true)
    else
      let rs := legacyItemsScan imgExists rest
      (r.1 ++ rs.1, rs.2)

/-- The legacy image scan over `data.get("output", [])`
(trajectory_processor.py:176-189).  Iterating a non-empty string (chars) or
non-empty dict (string keys) hits `item.get` on a non-dict and raises;
a non-iterable value raises at the `for` itself. -/
def legacyScan (imgExists : String → Bool) (data : Json) : List Effect × Bool :=
  match data.lookup "output" with
  | none => ([], false)
  | some (.arr items) => legacyItemsScan imgExists items
  | some (.str s) => ([], !(s == ""))
  | some (.obj kvs) => ([], !kvs.isEmpty)
  | some _ => ([], true)

/-- The `computer_call_output` screenshot extraction
(trajectory_processor.py:192-201).  A truthy non-string
`screenshot_path`/`image_path` reaches `_store_screenshot`, which fails on
`Path(...)` inside its own handler and stores nothing. -/
def ccoScan (data : Json) : List Effect :=
  if (data.lookup "type").isSome && isStrVal (data.lookup "type") "computer_call_output"
  then
    (match pyOr (data.lookup "screenshot_path") (data.lookup "image_path") with
     | some (.str p) => if p ≠ "" then [.storeShotPath p] else []
     | _ => []) ++
    (match pyOr (data.lookup "image") (data.lookup "screenshot") with
     | some (.str s) =>
       if s ≠ "" && pyStartsWith s "data:image" then [.storeShotB64 s] else []
     | _ => [])
  else []

/-- The four screenshot keys checked at each dict level of the trajectory
recursion (trajectory_processor.py:272-280). -/
def trajKeyEffects (imgExists : String → Bool) (kvs : List (String × Json)) :
    List Effect :=
  (["screenshot", "image", "screenshot_path", "image_path"]).flatMap fun k =>
    match jLookup kvs k with
    | some (.str v) =>
      if pyStartsWith v "data:image" then [.storeShotB64 v]
      else if imgExists v then [.storeShotPath v]
      else []
    | _ => []

mutual

/-- `TrajectoryProcessor._process_trajectory_data`
(trajectory_processor.py:269-289): at each dict, check the four screenshot
keys, then recurse into dict/list values; at each list, recurse into
dict/list items; anything else contributes nothing. -/
def trajShots (imgExists : String → Bool) : Json → List Effect
  | .obj kvs => trajKeyEffects imgExists kvs ++ trajShotsKvs imgExists kvs
  | .arr items => trajShotsArr imgExists items
  | _ => []

/-- Recursion over a dict's values (`trajectory_data.values()`). -/
def trajShotsKvs (imgExists : String → Bool) :
    List (String × Json) → List Effect
  | [] => []
  | (_, .obj kvs2) :: rest =>
    trajShots imgExists (.obj kvs2) ++ trajShotsKvs imgExists rest
  | (_, .arr items) :: rest =>
    trajShots imgExists (.arr items) ++ trajShotsKvs imgExists rest
  | _ :: rest => trajShotsKvs imgExists rest

/-- Recursion over a list's items. -/
def trajShotsArr (imgExists : String → Bool) : List Json → List Effect
  | [] => []
  | (.obj kvs) :: rest =>
    trajShots imgExists (.obj kvs) ++ trajShotsArr imgExists rest
  | (.arr items) :: rest =>
    trajShots imgExists (.arr items) ++ trajShotsArr imgExists rest
  | _ :: rest => trajShotsArr imgExists rest

end

/-- `file_path.name`: the final path component. -/
def fileName (p : String) : String :=
  String.mk ((p.data.reverse.takeWhile (fun c => c ≠ '/')).reverse)

/-- `TrajectoryProcessor._process_file` (trajectory_processor.py:146-225).

Key ordering facts taken from the source: the processed-set check (148) comes
first; `json.load` (154) runs *before* the path is added to the set (156), so
a parse failure leaves the path unmarked; message logs (165-173), legacy
images (176-189), `computer_call_output` (192-201), trajectory recursion
(204-205) and exactly one summary log (208-222) follow, and an exception
anywhere inside jumps to the handler (224-225), skipping the summary but
keeping the already-made mark and effects. -/
def process_file (fs : String → Option Json) (imgExists : String → Bool)
    (st : WState) (path : String) : WState :=
  if path ∈ st.processed then st
  else
    match fs path with
    | none => { st with effects := st.effects ++ [.errPrint path] }
    | some data =>
      let processed' := path :: st.processed
      let extracted_messages :=
        if data.isObj then extract_messages_from_json data else []
      let msgEffects :=
        (extracted_messages.filter (fun m => m ≠ "")).map
          (fun m => Effect.writeLog "info" m)
      let dictScan : List Effect × Bool :=
        if data.isObj then
          let leg := legacyScan imgExists data
          if leg.2 then (leg.1, true)
          else
            (leg.1 ++ ccoScan data ++
             (match data.lookup "trajectory" with
              | some t => trajShots imgExists t
              | none => []), false)
        else ([], false)
      let tailEffects : List Effect :=
        if dictScan.2 then [.errPrint path]
        else if extracted_messages.isEmpty then
          [.writeLog "debug" ("Trajectory processed: " ++ fileName path)]
        else
          [.writeLog "debug" ("Trajectory processed: " ++ fileName path ++
            " (" ++ toString extracted_messages.length ++ " messages extracted)")]
      { processed := processed',
        effects := st.effects ++ msgEffects ++ dictScan.1 ++ tailEffects }

/-- `TrajectoryProcessor.on_modified` (trajectory_processor.py:299-305):
skip directories and non-`.json` paths, otherwise `_process_file`. -/
def on_modified (fs : String → Option Json) (imgExists : String → Bool)
    (isDirectory : Bool) (path : String) (st : WState) : WState :=
  if isDirectory then st
  else if pyEndsWith path ".json" then process_file fs imgExists st path
  else st

/-! ## Concrete evaluation inputs used by witnesses -/

/-- A fully specified task evaluation input: clean metrics (two minutes, ten
API calls, 256 MB, 20% CPU, no errors, no retries, no cost, no dependency
requests), one successful progress entry, no judge configured. -/
def dataC1 : TaskData :=
  ⟨⟨0, 0, 0, 120, 10, 256, 20, 0⟩, [⟨"success", some 1⟩], none, "", ""⟩

/-- A task with all-zero metrics, an empty progress list, and a `task_info`
status of `"done"`: completed by the `task_info` check while the heuristic
correctness is only `clip01 (1/10) = 1/10 < 3/10`. -/
def dataC2 : TaskData :=
  ⟨⟨0, 0, 0, 0, 0, 0, 0, 0⟩, [], some "done", "", ""⟩

/-! ## Helper lemmas -/

lemma clip01_nonneg (q : ℚ) : 0 ≤ clip01 q := le_max_left 0 _

lemma clip01_le_one (q : ℚ) : clip01 q ≤ 1 := max_le zero_le_one (min_le_left 1 q)

lemma clip01_mem (q : ℚ) : mem01 (clip01 q) := ⟨clip01_nonneg q, clip01_le_one q⟩

lemma clip01_eq_self (q : ℚ) (h0 : 0 ≤ q) (h1 : q ≤ 1) : clip01 q = q := by
  unfold clip01; rw [min_eq_right h1, max_eq_right h0]

lemma le_bankRound (k : ℤ) (x : ℚ) (h : (k : ℚ) ≤ x) : k ≤ bankRound x := by
  unfold bankRound
  have hk : k ≤ ⌊x⌋ := Int.le_floor.mpr h
  split_ifs <;> omega

lemma bankRound_le (x : ℚ) (k : ℤ) (h : x ≤ (k : ℚ)) : bankRound x ≤ k := by
  unfold bankRound
  have hfl : ⌊x⌋ ≤ k := by simpa using Int.floor_le_floor h
  have hx : (⌊x⌋ : ℚ) ≤ x := Int.floor_le x
  split_ifs with hA hB hC
  · exact hfl
  · rcases eq_or_lt_of_le hfl with h' | h'
    · exfalso; rw [← h'] at h; linarith
    · omega
  · exact hfl
  · rcases eq_or_lt_of_le hfl with h' | h'
    · exfalso; rw [← h'] at h; push_neg at hA; linarith
    · omega

lemma round4_mem (q : ℚ) (h0 : 0 ≤ q) (h1 : q ≤ 1) : mem01 (round4 q) := by
  unfold round4
  constructor
  · have h : (0 : ℤ) ≤ bankRound (q * 10000) :=
      le_bankRound 0 _ (by push_cast; nlinarith)
    exact div_nonneg (by exact_mod_cast h) (by norm_num)
  · have h : bankRound (q * 10000) ≤ 10000 :=
      bankRound_le _ 10000 (by push_cast; nlinarith)
    rw [div_le_one (by norm_num)]
    exact_mod_cast h

lemma round4_three_tenths : round4 (3/10) = 3/10 := by
  unfold round4 bankRound
  norm_num

lemma fallback_correctness_mem (r o : String) : mem01 (fallback_correctness r o) := by
  unfold mem01
  simp only [fallback_correctness]
  split_ifs
  all_goals
    first
      | (constructor <;> (norm_num; done))
      | exact ⟨clip01_nonneg _, clip01_le_one _⟩

lemma evaluate_correctness_mem (k r : Option String) (a b : String) :
    mem01 (evaluate_correctness k r a b) := by
  unfold mem01
  simp only [evaluate_correctness]
  split_ifs
  · norm_num
  · exact fallback_correctness_mem a b
  · rcases r with _ | content
    · exact fallback_correctness_mem a b
    · rcases hp : parseScore (pyStrip content) with _ | v
      · simp only [hp]; exact fallback_correctness_mem a b
      · simp only [hp]; exact ⟨clip01_nonneg _, clip01_le_one _⟩

lemma heuristic_correctness_mem (data : TaskData) :
    mem01 (heuristic_correctness data) := by
  unfold heuristic_correctness
  exact ⟨clip01_nonneg _, clip01_le_one _⟩

lemma preFloorCorrectness_mem (llm : Bool) (k r : Option String) (data : TaskData) :
    mem01 (preFloorCorrectness llm k r data) := by
  simp only [preFloorCorrectness]
  split_ifs
  · exact evaluate_correctness_mem k r _ _
  · exact heuristic_correctness_mem data

lemma efficiencyScore_mem (a b c : ℚ) : mem01 (efficiencyScore a b c) := clip01_mem _

lemma qualityScore_mem (a b : ℚ) : mem01 (qualityScore a b) := clip01_mem _

lemma stabilityScore_mem (a b : ℚ) : mem01 (stabilityScore a b) := clip01_mem _

lemma autonomyScore_mem (a : ℚ) : mem01 (autonomyScore a) := clip01_mem _

lemma resourceEfficiencyScore_mem (a b : ℚ) : mem01 (resourceEfficiencyScore a b) :=
  clip01_mem _

lemma dependencyPenalty_nonneg (x : ℚ) (hx : 0 ≤ x) : 0 ≤ dependencyPenalty x :=
  le_min (by norm_num) (by linarith)

lemma errorPenalty_nonneg (x : ℚ) (hx : 0 ≤ x) : 0 ≤ errorPenalty x :=
  le_min (by norm_num) (by linarith)

lemma finalScore_mem (c e q s a re dp ep cost : ℚ)
    (hc : mem01 c) (he : mem01 e) (hq : mem01 q) (hs : mem01 s)
    (ha : mem01 a) (hre : mem01 re) (hdp : 0 ≤ dp) (hep : 0 ≤ ep) :
    mem01 (if 0 < cost then
             max 0 (max 0 (35/100 * c + 15/100 * e + 15/100 * q + 10/100 * s +
               15/100 * a + 10/100 * re - (dp + 0 + ep)) - min (1/10) (cost / 10))
           else
             max 0 (35/100 * c + 15/100 * e + 15/100 * q + 10/100 * s +
               15/100 * a + 10/100 * re - (dp + 0 + ep))) := by
  obtain ⟨hc0, hc1⟩ := hc
  obtain ⟨he0, he1⟩ := he
  obtain ⟨hq0, hq1⟩ := hq
  obtain ⟨hs0, hs1⟩ := hs
  obtain ⟨ha0, ha1⟩ := ha
  obtain ⟨hre0, hre1⟩ := hre
  have hsum : max 0 (35/100 * c + 15/100 * e + 15/100 * q + 10/100 * s +
      15/100 * a + 10/100 * re - (dp + 0 + ep)) ≤ 1 :=
    max_le (by norm_num) (by linarith)
  split_ifs with hcost
  · refine ⟨le_max_left 0 _, max_le (by norm_num) ?_⟩
    have hmin : 0 ≤ min (1/10) (cost / 10) := le_min (by norm_num) (by linarith)
    linarith
  · exact ⟨le_max_left 0 _, hsum⟩

lemma inv1p_pos (x : ℚ) (hx : 0 ≤ x) : 0 < 1 / (1 + x) :=
  one_div_pos.mpr (by linarith)

lemma inv1p_le_one (x : ℚ) (hx : 0 ≤ x) : 1 / (1 + x) ≤ 1 := by
  rw [div_le_one (by linarith)]; linarith

lemma qualityScore_eq (e rc : ℚ) (he : 0 ≤ e) (hrc : 0 ≤ rc) :
    qualityScore e rc = 6/10 * (1 / (1 + e)) + 4/10 * (1 / (1 + rc)) := by
  unfold qualityScore
  have h1 := inv1p_pos e he
  have h2 := inv1p_pos rc hrc
  have h3 := inv1p_le_one e he
  have h4 := inv1p_le_one rc hrc
  exact clip01_eq_self _ (by linarith) (by linarith)

lemma stabilityScore_eq (e ct : ℚ) (he : 0 ≤ e) (hct : 0 ≤ ct) :
    stabilityScore e ct = 1/2 * (1 / (1 + e)) + 1/2 * (1 / (1 + ct / 600)) := by
  unfold stabilityScore
  have hct' : 0 ≤ ct / 600 := by positivity
  have h1 := inv1p_pos e he
  have h2 := inv1p_pos _ hct'
  have h3 := inv1p_le_one e he
  have h4 := inv1p_le_one _ hct'
  exact clip01_eq_self _ (by linarith) (by linarith)

/-! ## Claim theorems -/

/-- C1: `ScoringEngine.score_task` is total and clamped.  For every input
mapping whose metric fields (present fields being the values of the record,
missing fields the defaults `0`/`0.0`) are non-negative, `score_task` returns
a report containing all six sub-scores and `final_score`, and each of these
seven values lies in `[0, 1]`. -/
theorem c1_score_task_total_and_clamped (llm : Bool) (apiKey resp : Option String)
    (data : TaskData)
    (hec : 0 ≤ data.metrics.error_count) (hrc : 0 ≤ data.metrics.retry_count)
    (hdeps : 0 ≤ data.metrics.human_or_agent_requests)
    (hct : 0 ≤ data.metrics.completion_time_s)
    (hapi : 0 ≤ data.metrics.total_api_calls)
    (hmem : 0 ≤ data.metrics.memory_usage_mb)
    (hcpu : 0 ≤ data.metrics.cpu_usage_percent)
    (hcost : 0 ≤ data.metrics.cost_usd) :
    mem01 ((score_task llm apiKey resp data).correctness) ∧
    mem01 ((score_task llm apiKey resp data).efficiency) ∧
    mem01 ((score_task llm apiKey resp data).quality) ∧
    mem01 ((score_task llm apiKey resp data).stability) ∧
    mem01 ((score_task llm apiKey resp data).autonomy) ∧
    mem01 ((score_task llm apiKey resp data).resource_efficiency) ∧
    mem01 ((score_task llm apiKey resp data).final_score) := by
  have hpf := preFloorCorrectness_mem llm apiKey resp data
  have hcorr : mem01 (if isCompleted data = true ∧
      preFloorCorrectness llm apiKey resp data < 3/10 then (3/10 : ℚ)
      else preFloorCorrectness llm apiKey resp data) := by
    split_ifs
    · exact ⟨by norm_num, by norm_num⟩
    · exact hpf
  simp only [score_task]
  refine ⟨round4_mem _ hcorr.1 hcorr.2,
          round4_mem _ (clip01_nonneg _) (clip01_le_one _),
          round4_mem _ (clip01_nonneg _) (clip01_le_one _),
          round4_mem _ (clip01_nonneg _) (clip01_le_one _),
          round4_mem _ (clip01_nonneg _) (clip01_le_one _),
          round4_mem _ (clip01_nonneg _) (clip01_le_one _), ?_⟩
  have hfin := finalScore_mem
    (if isCompleted data = true ∧ preFloorCorrectness llm apiKey resp data < 3/10
     then (3/10 : ℚ) else preFloorCorrectness llm apiKey resp data)
    (efficiencyScore data.metrics.completion_time_s data.metrics.total_api_calls
      data.metrics.retry_count)
    (qualityScore data.metrics.error_count data.metrics.retry_count)
    (stabilityScore data.metrics.error_count data.metrics.completion_time_s)
    (autonomyScore data.metrics.human_or_agent_requests)
    (resourceEfficiencyScore data.metrics.memory_usage_mb data.metrics.cpu_usage_percent)
    (dependencyPenalty data.metrics.human_or_agent_requests)
    (errorPenalty data.metrics.error_count)
    data.metrics.cost_usd hcorr
    (efficiencyScore_mem _ _ _) (qualityScore_mem _ _) (stabilityScore_mem _ _)
    (autonomyScore_mem _) (resourceEfficiencyScore_mem _ _)
    (dependencyPenalty_nonneg _ hdeps) (errorPenalty_nonneg _ hec)
  exact round4_mem _ hfin.1 hfin.2

/-- C1 witness: the clean concrete input `dataC1` satisfies every hypothesis
and its report is clamped. -/
theorem c1_witness :
    mem01 ((score_task false none none dataC1).correctness) ∧
    mem01 ((score_task false none none dataC1).efficiency) ∧
    mem01 ((score_task false none none dataC1).quality) ∧
    mem01 ((score_task false none none dataC1).stability) ∧
    mem01 ((score_task false none none dataC1).autonomy) ∧
    mem01 ((score_task false none none dataC1).resource_efficiency) ∧
    mem01 ((score_task false none none dataC1).final_score) :=
  c1_score_task_total_and_clamped false none none dataC1
    (by norm_num [dataC1]) (by norm_num [dataC1]) (by norm_num [dataC1])
    (by norm_num [dataC1]) (by norm_num [dataC1]) (by norm_num [dataC1])
    (by norm_num [dataC1]) (by norm_num [dataC1])

/-- C2: completion floor.  Whenever the evaluation input is judged complete
(latest progress status, or the separately supplied `task_info` status,
contains "done"/"complete" or equals "success" — `isCompleted`) and the
correctness sub-score computed before the floor is below `3/10`, the
correctness component of the returned report equals exactly `3/10`. -/
theorem c2_completion_floor (llm : Bool) (apiKey resp : Option String)
    (data : TaskData) (hdone : isCompleted data = true)
    (hlow : preFloorCorrectness llm apiKey resp data < 3/10) :
    (score_task llm apiKey resp data).correctness = 3/10 := by
  simp only [score_task]
  rw [if_pos ⟨hdone, hlow⟩]
  exact round4_three_tenths

/-- C2 witness: `dataC2` is completed via `task_info = "done"` while its
heuristic correctness is `1/10 < 3/10`; the reported correctness is `3/10`. -/
theorem c2_witness : (score_task false none none dataC2).correctness = 3/10 :=
  c2_completion_floor false none none dataC2 (by decide)
    (by norm_num [preFloorCorrectness, heuristic_correctness, dataC2, clip01,
      min_def, max_def])

/-- C3 counterexample: the claim says a whitespace-only input returns exactly
`0.0`, but the code's emptiness test is Python truthiness (`not s`), which
only fires on the empty string: for the whitespace-only request `" "` (whose
`strip()` is empty) and output `"x"`, `evaluate_correctness` with no key
configured returns the fallback's zero-meaningful-tokens baseline `2/5 = 0.4`,
not `0.0`. -/
theorem c3_counterexample :
    pyStrip " " = "" ∧ evaluate_correctness none none " " "x" = 2/5 := by
  constructor
  · decide
  · have h1 : meaningfulWords " " = [] := by decide
    simp [evaluate_correctness, keyTruthy, fallback_correctness, h1]

/-- C3 (amended): judge totality with an emptiness precondition on the *empty
string* only.  For every pair of input strings `evaluate_correctness` returns
a value in `[0, 1]`; and whenever either input is the empty string it returns
exactly `0.0` immediately, for every key/response environment (hence
independently of any external call). -/
theorem c3_judge_totality :
    (∀ (apiKey resp : Option String) (r o : String), r = "" ∨ o = "" →
       evaluate_correctness apiKey resp r o = 0) ∧
    (∀ (apiKey resp : Option String) (r o : String),
       mem01 (evaluate_correctness apiKey resp r o)) := by
  constructor
  · intro k rs r o h
    simp only [evaluate_correctness, if_pos h]
  · intro k rs r o
    exact evaluate_correctness_mem k rs r o

/-- C3 witness: `evaluate_correctness "" "anything" = 0` and a non-empty pair
lands in `[0, 1]`. -/
theorem c3_witness :
    evaluate_correctness none none "" "anything" = 0 ∧
    mem01 (evaluate_correctness none none "abc" "xyz") :=
  ⟨c3_judge_totality.1 none none "" "anything" (Or.inl rfl),
   c3_judge_totality.2 none none "abc" "xyz"⟩

/-- C4 counterexample: the claim says a file whose contents fail to parse is
still added to the processed-files set; but in the code `json.load` runs
*before* `processed_files.add`, so after processing the unreadable/unparsable
`"a.json"` the processed set does not contain it. -/
theorem c4_counterexample :
    "a.json" ∉ (process_file (fun _ => none) (fun _ => false)
      ⟨[], []⟩ "a.json").processed := by
  decide

/-- C4 (amended): on a parse failure the exception is caught and logged (the
handler's error line is the one appended effect), processing returns normally
(the loop continues), but the path is **not** added to the processed set, so
a later event for the same path will reprocess it. -/
theorem c4_parse_failure_not_marked (fs : String → Option Json)
    (imgExists : String → Bool) (st : WState) (p : String)
    (hfs : fs p = none) (hnew : p ∉ st.processed) :
    process_file fs imgExists st p =
      { st with effects := st.effects ++ [Effect.errPrint p] } := by
  simp only [process_file, if_neg hnew, hfs]

/-- C4 witness: a concrete parse failure leaves the processed set empty and
appends exactly the error line. -/
theorem c4_witness :
    process_file (fun _ => none) (fun _ => false) ⟨[], []⟩ "b.json" =
      ⟨[], [Effect.errPrint "b.json"]⟩ :=
  c4_parse_failure_not_marked _ _ _ _ rfl (by decide)

/-- C5 counterexample: per-path idempotence fails when the first invocation
hit a parse failure.  Processing `"a.json"` while unparsable leaves it
unmarked; a second invocation of file processing on the same path (the file
now parsable with one message) is not a no-op — it changes the state and
emits new log effects. -/
theorem c5_counterexample :
    process_file (fun _ => some (Json.obj [("text", Json.str "m")])) (fun _ => false)
        (process_file (fun _ => none) (fun _ => false) ⟨[], []⟩ "a.json") "a.json" ≠
      process_file (fun _ => none) (fun _ => false) ⟨[], []⟩ "a.json" := by
  decide

/-- C5 (amended): per-path idempotence for successfully parsed files.  If the
first invocation parsed its document (`fs p = some d`), then a second
invocation on the same absolute path — directly or via a filesystem modify
event, and under *any* later file contents and image environment — is a no-op
by path identity: no state change and no further log or screenshot effects. -/
theorem c5_processed_path_noop (fs fs' : String → Option Json)
    (imgE imgE' : String → Bool) (st : WState) (p : String) (d : Json)
    (hfs : fs p = some d) :
    process_file fs' imgE' (process_file fs imgE st p) p =
      process_file fs imgE st p ∧
    on_modified fs' imgE' false p (process_file fs imgE st p) =
      process_file fs imgE st p := by
  have hmem : p ∈ (process_file fs imgE st p).processed := by
    simp only [process_file]
    split_ifs with h
    · exact h
    · simp only [hfs]
      exact List.mem_cons_self _ _
  have hstop : process_file fs' imgE' (process_file fs imgE st p) p =
      process_file fs imgE st p := by
    set st1 := process_file fs imgE st p
    simp only [process_file]
    rw [if_pos hmem]
  refine ⟨hstop, ?_⟩
  simp only [on_modified, Bool.false_eq_true, if_false]
  by_cases h : pyEndsWith p ".json" = true
  · rw [if_pos h]; exact hstop
  · rw [if_neg h]

/-- C5 witness: reprocessing a successfully processed concrete path is a
no-op. -/
theorem c5_witness :
    process_file (fun _ => some (Json.obj [])) (fun _ => false)
        (process_file (fun _ => some (Json.obj [])) (fun _ => false)
          ⟨[], []⟩ "w.json") "w.json" =
      process_file (fun _ => some (Json.obj [])) (fun _ => false)
        ⟨[], []⟩ "w.json" :=
  (c5_processed_path_noop _ _ _ _ ⟨[], []⟩ "w.json" (Json.obj []) rfl).1

/-- C6 counterexample: at `e1 = 0 < e2 = 1` (other metrics fixed at 0), the
claimed conjunction fails because the error penalty does not strictly
decrease — `errorPenalty 1 = 1/20 > 0 = errorPenalty 0`. -/
theorem c6_counterexample :
    ¬ (qualityScore 1 0 < qualityScore 0 0 ∧
       stabilityScore 1 0 < stabilityScore 0 0 ∧
       errorPenalty 1 < errorPenalty 0) := by
  intro h
  have h3 := h.2.2
  norm_num [errorPenalty, min_def] at h3

/-- C6 (amended): holding the other metrics fixed and non-negative, for
`0 ≤ e1 < e2` the quality and stability sub-scores strictly decrease, while
the error penalty never decreases and strictly *increases* as long as it is
below its `0.3` cap (`e1 < 6`). -/
theorem c6_error_count_monotonicity (e1 e2 rc ct : ℚ) (h0 : 0 ≤ e1)
    (h12 : e1 < e2) (hrc : 0 ≤ rc) (hct : 0 ≤ ct) :
    qualityScore e2 rc < qualityScore e1 rc ∧
    stabilityScore e2 ct < stabilityScore e1 ct ∧
    errorPenalty e1 ≤ errorPenalty e2 ∧
    (e1 < 6 → errorPenalty e1 < errorPenalty e2) := by
  have h0' : (0:ℚ) ≤ e2 := by linarith
  have hinv : 1 / (1 + e2) < 1 / (1 + e1) :=
    one_div_lt_one_div_of_lt (by linarith) (by linarith)
  refine ⟨?_, ?_, ?_, ?_⟩
  · rw [qualityScore_eq e1 rc h0 hrc, qualityScore_eq e2 rc h0' hrc]
    linarith
  · rw [stabilityScore_eq e1 ct h0 hct, stabilityScore_eq e2 ct h0' hct]
    linarith
  · exact min_le_min (le_refl _) (by linarith)
  · intro h6
    unfold errorPenalty
    have hlt : 1/20 * e1 < 3/10 := by linarith
    rw [min_eq_right (le_of_lt hlt)]
    exact lt_min hlt (by linarith)

/-- C6 witness: the amended monotonicity at `e1 = 0`, `e2 = 1`, other metrics
`0`. -/
theorem c6_witness :
    qualityScore 1 0 < qualityScore 0 0 ∧
    stabilityScore 1 0 < stabilityScore 0 0 ∧
    errorPenalty 0 ≤ errorPenalty 1 ∧
    ((0 : ℚ) < 6 → errorPenalty 0 < errorPenalty 1) :=
  c6_error_count_monotonicity 0 1 0 0 (le_refl 0) (by norm_num) (le_refl 0)
    (le_refl 0)

/-- C7: percentage correction.  With a configured key and non-empty inputs,
a judge response of `"75"` yields exactly `0.75`; and in general any parsed
response value strictly greater than `1` is divided by `100` and then clamped
to `[0, 1]` (rather than being clamped directly to `1`). -/
theorem c7_percentage_correction :
    (∀ (k r o : String), k ≠ "" → r ≠ "" → o ≠ "" →
       evaluate_correctness (some k) (some "75") r o = 3/4) ∧
    (∀ (k content r o : String) (v : ℚ), k ≠ "" → r ≠ "" → o ≠ "" →
       parseScore (pyStrip content) = some v → 1 < v →
       evaluate_correctness (some k) (some content) r o = clip01 (v / 100)) := by
  have hgen : ∀ (k content r o : String) (v : ℚ), k ≠ "" → r ≠ "" → o ≠ "" →
      parseScore (pyStrip content) = some v → 1 < v →
      evaluate_correctness (some k) (some content) r o = clip01 (v / 100) := by
    intro k content r o v hk hr ho hp hv
    simp only [evaluate_correctness]
    rw [if_neg (by simp [hr, ho])]
    rw [if_neg (by simp [keyTruthy, hk])]
    simp only [hp]
    rw [if_pos hv]
  constructor
  · intro k r o hk hr ho
    have h75 : parseScore (pyStrip "75") = some 75 := by
      have h : pyStrip "75" = "75" := by decide
      rw [h]
      simp [parseScore, pyFloat?, digitsVal]
    have h := hgen k "75" r o 75 hk hr ho h75 (by norm_num)
    rw [h]
    norm_num [clip01, min_def, max_def]
  · exact hgen

/-- C7 witness: the concrete call with response `"75"` returns `3/4`. -/
theorem c7_witness :
    evaluate_correctness (some "key") (some "75") "req" "out" = 3/4 :=
  c7_percentage_correction.1 "key" "req" "out" (by decide) (by decide) (by decide)

/-- C8: the fallback heuristic formula.  For every non-empty request and
output, `_fallback_correctness` equals: `2/5` when the request has no
meaningful tokens; otherwise the clamp to `[0, 1]` of
`7/10 · keyword_ratio + 3/10 · length_factor`, floored at `3/10` when any
keyword overlap exists and the output is non-empty — with `keyword_ratio`
the intersection size over the request's meaningful-token count
(lowercased, stop-word-stripped tokens longer than two characters). -/
theorem c8_fallback_formula (r o : String) (hr : r ≠ "") (ho : o ≠ "") :
    fallback_correctness r o =
      (if meaningfulWords r = [] then 2/5
       else
         clip01 (if 0 < ((meaningfulWords r).filter
                   (fun w => (meaningfulWords o).contains w)).length ∧ 0 < o.length
                 then max (3/10)
                   (7/10 * ((((meaningfulWords r).filter
                       (fun w => (meaningfulWords o).contains w)).length : ℚ) /
                     ((meaningfulWords r).length : ℚ)) + 3/10 * lengthFactor r o)
                 else
                   7/10 * ((((meaningfulWords r).filter
                       (fun w => (meaningfulWords o).contains w)).length : ℚ) /
                     ((meaningfulWords r).length : ℚ)) + 3/10 * lengthFactor r o)) := by
  by_cases hw : meaningfulWords r = []
  · simp [fallback_correctness, hr, ho, hw]
  · simp only [fallback_correctness, if_neg hr, if_neg ho, if_neg hw]

/-- C8 witness: `fallback_correctness "abc" "abc"` — full keyword overlap,
short output (`3 < max 10 _` gives length factor `3/10`) — evaluates by the
formula to `7/10 + 9/100 = 79/100`. -/
theorem c8_witness : fallback_correctness "abc" "abc" = 79/100 := by
  have h := c8_fallback_formula "abc" "abc" (by decide) (by decide)
  rw [h]
  have h1 : meaningfulWords "abc" = ["abc"] := by decide
  have h2 : "abc".length = 3 := by decide
  simp [h1, h2, lengthFactor, clip01]
  norm_num [min_def, max_def]

/-- C9: extractor shape coverage.  Each of the five document shapes has a
minimal document for which the Multi-Schema Extractor returns at least one
non-empty message; and every input that is an empty dict or not a dict yields
the empty message list. -/
theorem c9_extractor_shapes :
    (∃ m ∈ extract_messages_from_json (Json.obj [("response", Json.obj [("output",
        Json.arr [Json.obj [("type", Json.str "message"), ("content",
          Json.arr [Json.obj [("type", Json.str "output_text"),
            ("text", Json.str "hello")]])]])])]), m ≠ "") ∧
    (∃ m ∈ extract_messages_from_json (Json.obj [("output",
        Json.arr [Json.obj [("type", Json.str "message"),
          ("content", Json.str "hi")]])]), m ≠ "") ∧
    (∃ m ∈ extract_messages_from_json (Json.obj [("role", Json.str "assistant"),
        ("content", Json.str "hey")]), m ≠ "") ∧
    (∃ m ∈ extract_messages_from_json (Json.obj [("text", Json.str "t")]), m ≠ "") ∧
    (∃ m ∈ extract_messages_from_json (Json.obj [("result",
        Json.obj [("text", Json.str "r")])]), m ≠ "") ∧
    (∀ j : Json, (j = Json.obj [] ∨ j.isObj = false) →
        extract_messages_from_json j = []) := by
  refine ⟨by decide, by decide, by decide, by decide, by decide, ?_⟩
  intro j h
  rcases h with h | h
  · subst h; rfl
  · cases j <;> first | rfl | simp [Json.isObj] at h

/-- C9 witness: a concrete non-dict document extracts to the empty list. -/
theorem c9_witness : extract_messages_from_json (Json.str "x") = [] :=
  c9_extractor_shapes.2.2.2.2.2 (Json.str "x") (Or.inr rfl)

/-- C10 counterexample: the claim asserts *exactly* two occurrences for every
assistant document with string content, but a document that additionally has
a `"text"` field equal to the same string yields it three times (role shape,
flat `text`, flat `content`). -/
theorem c10_counterexample :
    (extract_messages_from_json (Json.obj [("role", Json.str "assistant"),
      ("content", Json.str "hi"), ("text", Json.str "hi")])).count "hi" = 3 ∧
    (extract_messages_from_json (Json.obj [("role", Json.str "assistant"),
      ("content", Json.str "hi"), ("text", Json.str "hi")])).count "hi" ≠ 2 := by
  decide

/-- C10 (amended): assistant-content double emission for documents without
other message-producing keys.  If the top-level `role` is `"assistant"`, the
top-level `content` is a string with non-empty trim `s`, and none of the keys
`response`, `output`, `text`, `result`, `message`, `response_text` are
present, the extractor's output is exactly `[s, s]` — once from the
role-based shape and once from the flat `content` field, in that order. -/
theorem c10_assistant_double_emission (kvs : List (String × Json)) (c : String)
    (hrole : jLookup kvs "role" = some (Json.str "assistant"))
    (hcontent : jLookup kvs "content" = some (Json.str c))
    (hc : pyStrip c ≠ "")
    (h1 : jLookup kvs "response" = none)
    (h2 : jLookup kvs "output" = none)
    (h3 : jLookup kvs "text" = none)
    (h4 : jLookup kvs "result" = none)
    (h5 : jLookup kvs "message" = none)
    (h6 : jLookup kvs "response_text" = none) :
    extract_messages_from_json (Json.obj kvs) = [pyStrip c, pyStrip c] := by
  simp [extract_messages_from_json, schemaResponseOutput, schemaDirectOutput,
    schemaRole, schemaFlat, schemaResult, flatFieldText, Json.lookup, isStrVal,
    h1, h2, h3, h4, h5, h6, hrole, hcontent, hc]

/-- C10 witness: the minimal assistant document emits its trimmed content
exactly twice. -/
theorem c10_witness :
    extract_messages_from_json (Json.obj [("role", Json.str "assistant"),
      ("content", Json.str " hi ")]) = ["hi", "hi"] := by
  have h := c10_assistant_double_emission
    [("role", Json.str "assistant"), ("content", Json.str " hi ")]
    " hi " rfl rfl (by decide) rfl rfl rfl rfl rfl rfl
  rw [h]; decide

end AIVillage
